import Mathlib

/-!
Shallow embedding of the zero-trust authentication server drafts
(`server.js`, the wallet-keyed draft, the ethers-v5 draft embedded in the
public script, and the early web3 prototype), together with theorems about
the identity-binding and tiered re-authentication engine.

Conventions of the embedding:
* JS objects used as string-keyed maps become association lists
  (`List (String × _)`); `obj[k] = v` is `setA`, lookup is `lookupA`.
* Timestamps and windows are `Int` (seconds), matching JS number
  subtraction on integral values.
* External capabilities (keccak hashing, signature recovery, ledger
  calls) are passed in as oracle parameters: the handler makes at most
  one call to each, so one response value per call suffices.
* Each HTTP handler becomes a pure function from its inputs, the
  transport session and the store to an `Outcome` plus the new state.
-/

namespace ZeroTrust

/-- Association-list lookup, mirroring JS property read `obj[k]`. -/
def lookupA {α : Type} (l : List (String × α)) (k : String) : Option α :=
  (l.find? (fun p => p.1 == k)).map (fun p => p.2)

/-- Association-list update, mirroring JS property write `obj[k] = v`:
replaces the value in place if the key exists, otherwise appends. -/
def setA {α : Type} (l : List (String × α)) (k : String) (v : α) :
    List (String × α) :=
  match l with
  | [] => [(k, v)]
  | (k', v') :: rest =>
    if k' == k then (k, v) :: rest else (k', v') :: setA rest k v

/-- Outcomes a handler can produce, one constructor per distinct JSON
error string (plus `ok` for a 200 response). -/
inductive Outcome : Type
  | ok
  | badRequest
  | badSignature
  | bindFailed
  | rfidRequired
  | noSession
  | needFull
  | needWallet
  | notRegistered
  | setPasswordFailed
  | contractCallFailed
  | invalidCredentials
  deriving DecidableEq, Repr

/-- The pair of staleness flags returned by `policyResult`. -/
structure Policy : Type where
  needFull : Bool
  needWalletOnly : Bool
  deriving DecidableEq, Repr

/-- Embedding of `policyResult` (identical in every draft):
`needFull = (t - lastFullAuthAt) >= FULL_RELOGIN_WINDOW`,
`needWalletOnly = !needFull && (t - lastWalletAuthAt) >= WALLET_ONLY_WINDOW`. -/
def policyResult (fullReloginWindow walletOnlyWindow now lastFullAuthAt
    lastWalletAuthAt : Int) : Policy :=
  let needFull : Bool := decide (now - lastFullAuthAt ≥ fullReloginWindow)
  { needFull := needFull
    needWalletOnly :=
      !needFull && decide (now - lastWalletAuthAt ≥ walletOnlyWindow) }

/-- The three trust tiers, from least trusted to most trusted. -/
inductive Tier : Type
  | fullStale
  | walletStale
  | fresh
  deriving DecidableEq, Repr

/-- Tier dispatch as the resource-granting endpoint performs it on the
flags: `needFull` first, then `needWalletOnly`, else fresh. -/
def tierOfPolicy (p : Policy) : Tier :=
  if p.needFull then .fullStale
  else if p.needWalletOnly then .walletStale
  else .fresh

/-- The tier the code computes for given windows, times and timestamps. -/
def tierCode (fullReloginWindow walletOnlyWindow now lastFullAuthAt
    lastWalletAuthAt : Int) : Tier :=
  tierOfPolicy (policyResult fullReloginWindow walletOnlyWindow now
    lastFullAuthAt lastWalletAuthAt)

/-- Modelled from the spec: the reference tier definition — FullStale iff
`now - lastFullAuthAt ≥ fullReloginWindow`, otherwise WalletStale iff
`now - lastWalletAuthAt ≥ walletOnlyWindow`, otherwise Fresh. -/
def tierSpec (fullReloginWindow walletOnlyWindow now lastFullAuthAt
    lastWalletAuthAt : Int) : Tier :=
  if now - lastFullAuthAt ≥ fullReloginWindow then .fullStale
  else if now - lastWalletAuthAt ≥ walletOnlyWindow then .walletStale
  else .fresh

/-- Numeric trust level of a tier: higher means more trusted. -/
def trustLevel : Tier → Nat
  | .fullStale => 0
  | .walletStale => 1
  | .fresh => 2

/-- Lowercasing of a string (JS `toLowerCase()` on the ASCII addresses
and keys this system handles), written over the character list so that
it evaluates inside the kernel. -/
def toLowerStr (s : String) : String := ⟨s.data.map Char.toLower⟩

/-- The canonical SIWE challenge message built from the nonce
(`Login to ZeroTrust - nonce:${nonce}`), identical in every draft. -/
def siweMessage (nonce : String) : String :=
  "Login to ZeroTrust - nonce:" ++ nonce

/-- The ethers zero address constant. -/
def zeroAddr : String := "0x0000000000000000000000000000000000000000"

namespace MainDraft

/-- Session record of the main draft (`db.sessions[userKey]`), keyed by
`rfidHash`. -/
structure SessRec : Type where
  lastWalletAuthAt : Int
  lastFullAuthAt : Int
  boundWallet : Option String
  rfidHash : String
  deriving DecidableEq, Repr

/-- Persistent store of the main draft: `{ sessions, walletBindings }`. -/
structure DB : Type where
  sessions : List (String × SessRec)
  walletBindings : List (String × String)
  deriving DecidableEq, Repr

/-- Transport (cookie) session fields the main draft reads and writes. -/
structure Transport : Type where
  nonce : Option String
  userKey : Option String
  address : Option String
  boundWallet : Option String
  deriving DecidableEq, Repr

/-- Result of a handler: outcome plus the updated transport session and
store. -/
structure HandlerResult : Type where
  outcome : Outcome
  ts : Transport
  db : DB
  deriving DecidableEq, Repr

/-- Embedding of `getOrInitSession(userKey, req)`: initialises
`db.sessions[userKey]` if absent (with zero timestamps and the bound
wallet looked up in `db.walletBindings`), and records `userKey` and the
bound wallet on the transport session. -/
def getOrInitSession (userKey : String) (db : DB) (ts : Transport) :
    SessRec × DB × Transport :=
  let sess : SessRec :=
    match lookupA db.sessions userKey with
    | some s => s
    | none =>
      { lastWalletAuthAt := 0, lastFullAuthAt := 0
        boundWallet := lookupA db.walletBindings userKey
        rfidHash := userKey }
  (sess,
   { db with sessions := setA db.sessions userKey sess },
   { ts with userKey := some userKey, boundWallet := sess.boundWallet })

/-- Embedding of the main draft's `POST /siwe/verify`.  Oracles:
`recover` for `ethers.verifyMessage`, `bindOk` for whether the ledger
`bindWallet` write confirms.  Fails with `badRequest` when the session
nonce, the body address, the body signature or the session `userKey` is
missing; recovers the signer and compares lowercased addresses; binds on
first use, else refreshes `lastWalletAuthAt`. -/
def siweVerify (recover : String → String → String) (bindOk : Bool)
    (now : Int) (address signature : Option String) (ts : Transport)
    (db : DB) : HandlerResult :=
  match ts.nonce, address, signature, ts.userKey with
  | some nonce, some addr, some sig, some userKey =>
    let recovered := recover (siweMessage nonce) sig
    if toLowerStr recovered != toLowerStr addr then
      { outcome := .badSignature, ts := ts, db := db }
    else
      match getOrInitSession userKey db ts with
      | (sess, db1, ts1) =>
        match sess.boundWallet with
        | none =>
          if bindOk then
            let sess2 := { sess with boundWallet := some addr
                                     lastWalletAuthAt := now }
            { outcome := .ok
              ts := { ts1 with address := some addr }
              db := { db1 with
                        sessions := setA db1.sessions userKey sess2
                        walletBindings :=
                          setA db1.walletBindings userKey addr } }
          else
            { outcome := .bindFailed, ts := ts1, db := db1 }
        | some _ =>
          let sess2 := { sess with lastWalletAuthAt := now }
          { outcome := .ok
            ts := { ts1 with address := some addr }
            db := { db1 with sessions := setA db1.sessions userKey sess2 } }
  | _, _, _, _ => { outcome := .badRequest, ts := ts, db := db }

/-- Result of the main draft's `/authenticate`: outcome, updated
transport session and store, and the `next` field of the 200 response
(when any). -/
structure AuthResult : Type where
  outcome : Outcome
  ts : Transport
  db : DB
  next : Option String
  deriving DecidableEq, Repr

/-- Embedding of the main draft's `POST /authenticate`.  Oracles as in
the wallet-keyed draft.  On success it always runs `getOrInitSession`
on the rfid hash, sets both timestamps of that rfid-keyed record to
now, overwrites its `boundWallet` with the ledger's wallet (zero
address treated as none) and mirrors a present binding. -/
def authenticate (hash : String → String)
    (ledgerExists hasPassword : Bool) (wallet : String)
    (setPwOk verifyThrows verifyOk : Bool) (now : Int)
    (rfid password : Option String) (ts : Transport) (db : DB) :
    AuthResult :=
  match rfid, password with
  | some r, some _pw =>
    let rfidHash := hash r
    if !ledgerExists then
      { outcome := .notRegistered, ts := ts, db := db, next := none }
    else
      match (if !hasPassword then
               (if setPwOk then Except.ok true
                else Except.error Outcome.setPasswordFailed)
             else if verifyThrows then Except.error .contractCallFailed
             else Except.ok verifyOk : Except Outcome Bool) with
      | .error e => { outcome := e, ts := ts, db := db, next := none }
      | .ok valid =>
        if !valid then
          { outcome := .invalidCredentials, ts := ts, db := db
            next := none }
        else
          match getOrInitSession rfidHash db ts with
          | (sess, db1, ts1) =>
            let bw : Option String :=
              if wallet != "" && wallet != zeroAddr then some wallet
              else none
            let sess1 := { sess with lastFullAuthAt := now
                                     lastWalletAuthAt := now
                                     boundWallet := bw }
            { outcome := .ok
              ts := ts1
              db := { db1 with
                        sessions := setA db1.sessions rfidHash sess1
                        walletBindings :=
                          match bw with
                          | some w => setA db1.walletBindings rfidHash w
                          | none => db1.walletBindings }
              next := some (if bw.isSome then "none" else "wallet") }
  | _, _ => { outcome := .badRequest, ts := ts, db := db, next := none }

end MainDraft

namespace DraftP

/-- Session record of the wallet-keyed draft
(`db.sessionsAddr[addressLowercase]`). -/
structure SessRec : Type where
  lastWalletAuthAt : Int
  lastFullAuthAt : Int
  deriving DecidableEq, Repr

/-- Persistent store of the wallet-keyed draft:
`{ sessionsAddr, walletBindings }` with `walletBindings : rfidHash ↦
wallet address`. -/
structure DB : Type where
  sessionsAddr : List (String × SessRec)
  walletBindings : List (String × String)
  deriving DecidableEq, Repr

/-- Transport (cookie) session fields the wallet-keyed draft reads and
writes. -/
structure Transport : Type where
  nonce : Option String
  address : Option String
  deriving DecidableEq, Repr

/-- Result of a handler: outcome plus the updated transport session and
store. -/
structure HandlerResult : Type where
  outcome : Outcome
  ts : Transport
  db : DB
  deriving DecidableEq, Repr

/-- Embedding of `rfidByAddress(address)`: reverse lookup of the first
binding entry whose (truthy) wallet equals the address, case
insensitively. -/
def rfidByAddress (walletBindings : List (String × String))
    (address : String) : Option String :=
  let a := toLowerStr address
  (walletBindings.find?
    (fun p => p.2 != "" && toLowerStr p.2 == a)).map (fun p => p.1)

/-- Embedding of `getOrInitAddrSession(address)`: reads or initialises
(with zero timestamps) the session record keyed by the lowercased
address; returns the record and the store with the record present. -/
def getOrInitAddrSession (address : String) (db : DB) : SessRec × DB :=
  let a := toLowerStr address
  let sess : SessRec :=
    match lookupA db.sessionsAddr a with
    | some s => s
    | none => { lastWalletAuthAt := 0, lastFullAuthAt := 0 }
  (sess, { db with sessionsAddr := setA db.sessionsAddr a sess })

/-- Embedding of the wallet-keyed draft's `POST /siwe/verify`.  Oracles:
`recover` for `ethers.utils.verifyMessage`, `freshNonce` for the
`crypto.randomBytes` value used when the session nonce is missing,
`bindOk` for whether the ledger `bindWallet` write confirms.  A missing
session nonce is replaced by `freshNonce` (and stored) before the
missing-field check; the signer is recovered and compared lowercased;
an unbound wallet requires `rfidHash` and binds it, refreshing both
timestamps, while a bound wallet only refreshes `lastWalletAuthAt`. -/
def siweVerify (recover : String → String → String) (freshNonce : String)
    (bindOk : Bool) (now : Int)
    (address signature rfidHash : Option String) (ts : Transport)
    (db : DB) : HandlerResult :=
  let nonce := ts.nonce.getD freshNonce
  let ts0 := { ts with nonce := some nonce }
  match address, signature with
  | some addr, some sig =>
    if toLowerStr (recover (siweMessage nonce) sig) != toLowerStr addr then
      { outcome := .badSignature, ts := ts0, db := db }
    else
      let addrL := toLowerStr addr
      match getOrInitAddrSession addrL db with
      | (sess, db1) =>
        match rfidByAddress db1.walletBindings addrL with
        | some _ =>
          { outcome := .ok
            ts := { ts0 with address := some addrL }
            db := { db1 with
                      sessionsAddr := setA db1.sessionsAddr addrL
                        { sess with lastWalletAuthAt := now } } }
        | none =>
          match rfidHash with
          | none => { outcome := .rfidRequired, ts := ts0, db := db1 }
          | some rh =>
            if bindOk then
              { outcome := .ok
                ts := { ts0 with address := some addrL }
                db := { db1 with
                          walletBindings := setA db1.walletBindings rh addr
                          sessionsAddr := setA db1.sessionsAddr addrL
                            { lastWalletAuthAt := now
                              lastFullAuthAt := now } } }
            else
              { outcome := .bindFailed, ts := ts0, db := db1 }
  | _, _ => { outcome := .badRequest, ts := ts0, db := db }

/-- Result of the wallet-keyed draft's `/authenticate`: outcome, updated
store, and the `next` field of the 200 response (when any). -/
structure AuthResult : Type where
  outcome : Outcome
  db : DB
  next : Option String
  deriving DecidableEq, Repr

/-- Embedding of the wallet-keyed draft's `POST /authenticate`.  Oracles:
`hash` for `hashUtf8`; the ledger `getUser` response is the triple
`(ledgerExists, hasPassword, wallet)`; `setPwOk` is whether the
first-time `setPasswordFirstTime` write confirms, `verifyThrows` and
`verifyOk` model `verifyCredentials` throwing or returning. On success
with a bound wallet it refreshes both timestamps of that wallet's
session and mirrors the binding; with no bound wallet it answers
`next = "wallet"` and leaves the store untouched. -/
def authenticate (hash : String → String)
    (ledgerExists hasPassword : Bool) (wallet : String)
    (setPwOk verifyThrows verifyOk : Bool) (now : Int)
    (rfid password : Option String) (db : DB) : AuthResult :=
  match rfid, password with
  | some r, some _pw =>
    let rfidHash := hash r
    if !ledgerExists then { outcome := .notRegistered, db := db, next := none }
    else
      match (if !hasPassword then
               (if setPwOk then Except.ok true
                else Except.error Outcome.setPasswordFailed)
             else if verifyThrows then Except.error .contractCallFailed
             else Except.ok verifyOk : Except Outcome Bool) with
      | .error e => { outcome := e, db := db, next := none }
      | .ok valid =>
        if !valid then
          { outcome := .invalidCredentials, db := db, next := none }
        else
          if wallet != "" && wallet != zeroAddr then
            match getOrInitAddrSession wallet db with
            | (_sess, db1) =>
              let db2 :=
                { db1 with
                    sessionsAddr := setA db1.sessionsAddr
                      (toLowerStr wallet)
                      { lastWalletAuthAt := now, lastFullAuthAt := now }
                    walletBindings := setA db1.walletBindings rfidHash
                      wallet }
              { outcome := .ok, db := db2, next := some "none" }
          else
            { outcome := .ok, db := db, next := some "wallet" }
  | _, _ => { outcome := .badRequest, db := db, next := none }

end DraftP

namespace DraftV

/-- Embedding of `POST /siwe/verify` of the ethers-v5 draft embedded in
the public script file.  Same shape as the wallet-keyed draft (shared
store and transport types) but with no binding logic, and with the
signature comparison written `==`: it returns `badSignature` when the
recovered signer equals the claimed address and proceeds when they
differ. -/
def siweVerify (recover : String → String → String) (freshNonce : String)
    (now : Int) (address signature : Option String)
    (ts : DraftP.Transport) (db : DraftP.DB) : DraftP.HandlerResult :=
  let nonce := ts.nonce.getD freshNonce
  let ts0 := { ts with nonce := some nonce }
  match address, signature with
  | some addr, some sig =>
    if toLowerStr (recover (siweMessage nonce) sig) == toLowerStr addr then
      { outcome := .badSignature, ts := ts0, db := db }
    else
      let addrL := toLowerStr addr
      match DraftP.getOrInitAddrSession addrL db with
      | (sess, db1) =>
        { outcome := .ok
          ts := { ts0 with address := some addrL }
          db := { db1 with
                    sessionsAddr := setA db1.sessionsAddr addrL
                      { sess with lastWalletAuthAt := now } } }
  | _, _ => { outcome := .badRequest, ts := ts0, db := db }

end DraftV

namespace Proto

/-- Embedding of the early web3 prototype's `POST /set-password`:
`db[rfid] = { password }` — it persists the raw password string. -/
def setPassword (dbp : List (String × String)) (rfid password : String) :
    List (String × String) :=
  setA dbp rfid password

/-- Embedding of the early web3 prototype's `POST /authenticate`:
authentication succeeds iff the RFID is registered on chain, a stored
record exists, and the stored raw password equals the submitted one. -/
def authenticate (isRegistered : Bool) (dbp : List (String × String))
    (rfid password : Option String) : Outcome :=
  match rfid, password with
  | some r, some pw =>
    match lookupA dbp r with
    | some stored =>
      if isRegistered && stored == pw then .ok else .invalidCredentials
    | none => .invalidCredentials
  | _, _ => .badRequest

end Proto

/-- C2: the tier computation agrees with the reference definition: it is
FullStale iff `now - lastFullAuthAt ≥ fullReloginWindow`; otherwise
WalletStale iff `now - lastWalletAuthAt ≥ walletOnlyWindow`; otherwise
Fresh; and the two flags equal the reference `needFull`/`needWalletOnly`. -/
theorem policyResult_matches_reference (fw ww now lf lw : Int) :
    tierCode fw ww now lf lw = tierSpec fw ww now lf lw ∧
    ((policyResult fw ww now lf lw).needFull = true ↔ now - lf ≥ fw) ∧
    ((policyResult fw ww now lf lw).needWalletOnly = true ↔
      ¬(now - lf ≥ fw) ∧ now - lw ≥ ww) := by
  unfold tierCode tierSpec tierOfPolicy policyResult
  by_cases h1 : now - lf ≥ fw <;> by_cases h2 : now - lw ≥ ww <;>
    simp [h1, h2]

/-- C5: for fixed timestamps and any window configuration, the computed
tier's trust level never increases as `now` increases, and
`needFull = true` forces `needWalletOnly = false`. -/
theorem tier_monotone_and_flags_exclusive (fw ww lf lw now now' : Int)
    (h : now ≤ now') :
    trustLevel (tierCode fw ww now' lf lw) ≤
      trustLevel (tierCode fw ww now lf lw) ∧
    ((policyResult fw ww now lf lw).needFull = true →
      (policyResult fw ww now lf lw).needWalletOnly = false) := by
  constructor
  · unfold tierCode tierOfPolicy policyResult
    by_cases h1 : now - lf ≥ fw
    · have h1' : now' - lf ≥ fw := by omega
      simp [h1, h1', trustLevel]
    · by_cases h1' : now' - lf ≥ fw
      · simp [h1, h1', trustLevel]
      · by_cases h2 : now - lw ≥ ww
        · have h2' : now' - lw ≥ ww := by omega
          simp [h1, h1', h2, h2', trustLevel]
        · by_cases h2' : now' - lw ≥ ww <;>
            simp [h1, h1', h2, h2', trustLevel]
  · intro hf
    unfold policyResult at hf ⊢
    simp only [Bool.and_eq_true, decide_eq_true_eq] at hf ⊢
    simp [hf]

/-- Witness for C5 at concrete inputs. -/
theorem tier_monotone_and_flags_exclusive_witness :
    (0 : Int) ≤ 1000 ∧
    (trustLevel (tierCode 900 350 1000 0 0) ≤
      trustLevel (tierCode 900 350 0 0 0) ∧
    ((policyResult 900 350 0 0 0).needFull = true →
      (policyResult 900 350 0 0 0).needWalletOnly = false)) :=
  ⟨by decide, tier_monotone_and_flags_exclusive 900 350 0 0 0 1000 (by decide)⟩

/-- C10: in the main draft, `POST /siwe/verify` fails with `badRequest`
whenever the transport session carries no `userKey` (which only a prior
successful `/authenticate` in the same conversation sets), and in that
case neither the transport session nor the store changes. -/
theorem siweVerify_requires_userKey (recover : String → String → String)
    (bindOk : Bool) (now : Int) (address signature : Option String)
    (ts : MainDraft.Transport) (db : MainDraft.DB)
    (h : ts.userKey = none) :
    MainDraft.siweVerify recover bindOk now address signature ts db =
      { outcome := .badRequest, ts := ts, db := db } := by
  unfold MainDraft.siweVerify
  rcases hn : ts.nonce with _ | n <;> rcases address with _ | a <;>
    rcases signature with _ | s <;> simp [h]

/-- Witness for C10 at concrete inputs. -/
theorem siweVerify_requires_userKey_witness :
    (MainDraft.Transport.mk (some "n1") none none none).userKey = none ∧
    MainDraft.siweVerify (fun _ _ => "0xab") true 5 (some "0xAB")
        (some "sig1") (MainDraft.Transport.mk (some "n1") none none none)
        (MainDraft.DB.mk [] []) =
      { outcome := .badRequest
        ts := MainDraft.Transport.mk (some "n1") none none none
        db := MainDraft.DB.mk [] [] } :=
  ⟨rfl, siweVerify_requires_userKey (fun _ _ => "0xab") true 5 (some "0xAB")
    (some "sig1") (MainDraft.Transport.mk (some "n1") none none none)
    (MainDraft.DB.mk [] []) rfl⟩

/-- Looking up the key just written by `setA` returns the written
value. -/
theorem lookupA_setA_self {α : Type} (l : List (String × α)) (k : String)
    (v : α) : lookupA (setA l k v) k = some v := by
  induction l with
  | nil => simp [setA, lookupA]
  | cons hd tl ih =>
    rcases hd with ⟨k', v'⟩
    by_cases h : k' == k
    · simp [setA, h, lookupA]
    · simp only [setA, h, if_false, Bool.false_eq_true]
      simp only [lookupA, List.find?] at ih ⊢
      simp [h, ih]

/-- C1: the ethers-v5 draft embedded in the public script inverts the
signature check (`==` where the other drafts have `!==`): at a concrete
request it succeeds although the recovered signer differs from the
claimed address, and it fails with `badSignature` when they agree. -/
theorem siweVerify_inverted_signature_check :
    (DraftV.siweVerify (fun _ _ => "0xaaaa") "f1" 10 (some "0xBBBB")
        (some "sig1") (DraftP.Transport.mk (some "n1") none)
        (DraftP.DB.mk [] [])).outcome = Outcome.ok ∧
    (DraftV.siweVerify (fun _ _ => "0xaaaa") "f1" 10 (some "0xAAAA")
        (some "sig1") (DraftP.Transport.mk (some "n1") none)
        (DraftP.DB.mk [] [])).outcome = Outcome.badSignature := by
  decide

/-- C4: the wallet-keyed draft has no binding-conflict check: with
identity `idA` already bound to wallet `0xW1`, a verification by wallet
`0xW2` that presents `idA` succeeds and silently overwrites the stored
binding of `idA` to `0xW2` instead of failing. -/
theorem siweVerify_overwrites_existing_binding :
    (DraftP.siweVerify (fun _ _ => "0xW2") "f1" true 10 (some "0xW2")
      (some "sig1") (some "idA") (DraftP.Transport.mk (some "n1") none)
      (DraftP.DB.mk [] [("idA", "0xW1")])).outcome = Outcome.ok ∧
    lookupA (DraftP.siweVerify (fun _ _ => "0xW2") "f1" true 10
      (some "0xW2") (some "sig1") (some "idA")
      (DraftP.Transport.mk (some "n1") none)
      (DraftP.DB.mk [] [("idA", "0xW1")])).db.walletBindings "idA" =
        some "0xW2" ∧
    lookupA (DraftP.siweVerify (fun _ _ => "0xW2") "f1" true 10
      (some "0xW2") (some "sig1") (some "idA")
      (DraftP.Transport.mk (some "n1") none)
      (DraftP.DB.mk [] [("idA", "0xW1")])).db.walletBindings "idA" ≠
        some "0xW1" := by
  decide

/-- C9: the early web3 prototype persists the raw PIN, not a digest:
whatever password is submitted to `/set-password` is stored verbatim
under the RFID key (shown in general and at a concrete input), so the
raw secret crosses the storage boundary. -/
theorem setPassword_stores_raw_pin :
    (∀ (dbp : List (String × String)) (rfid pw : String),
      lookupA (Proto.setPassword dbp rfid pw) rfid = some pw) ∧
    Proto.setPassword [] "tag1" "1234" = [("tag1", "1234")] ∧
    Proto.authenticate true (Proto.setPassword [] "tag1" "1234")
      (some "tag1") (some "1234") = Outcome.ok := by
  refine ⟨fun dbp rfid pw => lookupA_setA_self dbp rfid pw, by decide, by decide⟩

/-- C6 counterexample: in the main draft a successful primary
authentication for an identity with no wallet binding still creates and
stamps a session record (keyed by the rfid hash): starting from an
empty store, the call answers `next = "wallet"` yet writes a session
record with both timestamps set, so the claim that no session record is
created or modified is false on this draft. -/
theorem authenticate_touches_session_without_binding :
    let r := MainDraft.authenticate (fun s => String.append s "H") true
      true "" false false true 10 (some "r1") (some "p1")
      (MainDraft.Transport.mk none none none none) (MainDraft.DB.mk [] [])
    r.outcome = Outcome.ok ∧ r.next = some "wallet" ∧
      r.db.sessions ≠ [] ∧
      lookupA r.db.sessions "r1H" = some
        { lastWalletAuthAt := 10, lastFullAuthAt := 10
          boundWallet := none, rfidHash := "r1H" } := by
  decide

/-- C6 amended: in the wallet-keyed part_000 draft a successful primary
authentication with a bound wallet stamps both timestamps of that
wallet's session and answers `next = "none"`, and with no binding
answers `next = "wallet"` leaving the store untouched; in the main
draft every successful primary authentication creates or updates the
rfid-keyed session record and sets both its timestamps, binding or
not. -/
theorem authenticate_session_refresh_amended (hash : String → String)
    (hasPw setPwOk vThrows vOk : Bool) (wallet : String) (now : Int)
    (r pw : String) (db : DraftP.DB) (res : DraftP.AuthResult)
    (hres : DraftP.authenticate hash true hasPw wallet setPwOk vThrows vOk
      now (some r) (some pw) db = res)
    (hok : res.outcome = Outcome.ok)
    (hash2 : String → String) (hasPw2 setPwOk2 vThrows2 vOk2 : Bool)
    (wallet2 : String) (now2 : Int) (r2 pw2 : String)
    (ts2 : MainDraft.Transport) (db2 : MainDraft.DB)
    (res2 : MainDraft.AuthResult)
    (hres2 : MainDraft.authenticate hash2 true hasPw2 wallet2 setPwOk2
      vThrows2 vOk2 now2 (some r2) (some pw2) ts2 db2 = res2)
    (hok2 : res2.outcome = Outcome.ok) :
    ((wallet != "" && wallet != zeroAddr) = true →
      lookupA res.db.sessionsAddr (toLowerStr wallet) =
        some { lastWalletAuthAt := now, lastFullAuthAt := now } ∧
      res.next = some "none") ∧
    ((wallet != "" && wallet != zeroAddr) = false →
      res.db = db ∧ res.next = some "wallet") ∧
    ((lookupA res2.db.sessions (hash2 r2)).map
      (fun s => (s.lastFullAuthAt, s.lastWalletAuthAt))) =
        some (now2, now2) := by
  subst hres
  subst hres2
  refine ⟨?_, ?_, ?_⟩
  · intro hw
    unfold DraftP.authenticate at hok ⊢
    cases hasPw <;> cases setPwOk <;> cases vThrows <;> cases vOk <;>
      simp_all [DraftP.getOrInitAddrSession, lookupA_setA_self, hw]
  · intro hw
    have hcond : ¬(¬wallet = "" ∧ ¬wallet = zeroAddr) := by
      rintro ⟨h1, h2⟩
      simp [h1, h2] at hw
    unfold DraftP.authenticate at hok ⊢
    cases hasPw <;> cases setPwOk <;> cases vThrows <;> cases vOk <;>
      simp_all [if_neg hcond]
  · unfold MainDraft.authenticate at hok2 ⊢
    cases hasPw2 <;> cases setPwOk2 <;> cases vThrows2 <;> cases vOk2 <;>
      simp_all [MainDraft.getOrInitSession, lookupA_setA_self]

/-- Witness for the amended C6 at concrete inputs. -/
theorem authenticate_session_refresh_amended_witness :
    (DraftP.authenticate (fun s => String.append s "H") true true "0xW1"
      false false true 10 (some "r1") (some "p1")
      (DraftP.DB.mk [] [])).outcome = Outcome.ok ∧
    (MainDraft.authenticate (fun s => String.append s "H") true true
      "0xW2" false false true 20 (some "r2") (some "p2")
      (MainDraft.Transport.mk none none none none)
      (MainDraft.DB.mk [] [])).outcome = Outcome.ok ∧
    ((("0xW1" != "" && "0xW1" != zeroAddr) = true →
      lookupA (DraftP.authenticate (fun s => String.append s "H") true
          true "0xW1" false false true 10 (some "r1") (some "p1")
          (DraftP.DB.mk [] [])).db.sessionsAddr (toLowerStr "0xW1") =
        some { lastWalletAuthAt := 10, lastFullAuthAt := 10 } ∧
      (DraftP.authenticate (fun s => String.append s "H") true true
          "0xW1" false false true 10 (some "r1") (some "p1")
          (DraftP.DB.mk [] [])).next = some "none") ∧
    ((("0xW1" != "" && "0xW1" != zeroAddr) = false →
      (DraftP.authenticate (fun s => String.append s "H") true true
          "0xW1" false false true 10 (some "r1") (some "p1")
          (DraftP.DB.mk [] [])).db = DraftP.DB.mk [] [] ∧
      (DraftP.authenticate (fun s => String.append s "H") true true
          "0xW1" false false true 10 (some "r1") (some "p1")
          (DraftP.DB.mk [] [])).next = some "wallet")) ∧
    ((lookupA (MainDraft.authenticate (fun s => String.append s "H") true
        true "0xW2" false false true 20 (some "r2") (some "p2")
        (MainDraft.Transport.mk none none none none)
        (MainDraft.DB.mk [] [])).db.sessions
        ((fun s => String.append s "H") "r2")).map
      (fun s => (s.lastFullAuthAt, s.lastWalletAuthAt))) =
        some (20, 20)) :=
  ⟨by decide, by decide,
    authenticate_session_refresh_amended (fun s => String.append s "H")
      true false false true "0xW1" 10 "r1" "p1" (DraftP.DB.mk [] []) _ rfl
      (by decide) (fun s => String.append s "H") true false false true
      "0xW2" 20 "r2" "p2" (MainDraft.Transport.mk none none none none)
      (MainDraft.DB.mk [] []) _ rfl (by decide)⟩

/-- C8 counterexample: in the wallet-keyed draft a verification request
arriving with no active nonce does not fail with `badRequest`: the
handler generates a fresh nonce, stores it on the transport session (a
state change) and proceeds — here all the way to a successful first
bind. -/
theorem siweVerify_missing_nonce_not_badRequest :
    let r := DraftP.siweVerify (fun _ _ => "0xaa") "fresh1" true 10
      (some "0xAA") (some "sig1") (some "idA")
      (DraftP.Transport.mk none none) (DraftP.DB.mk [] [])
    r.outcome = Outcome.ok ∧ r.outcome ≠ Outcome.badRequest ∧
      r.ts.nonce = some "fresh1" := by
  decide

/-- C8 amended: in the main draft a request missing the nonce, address,
signature or session `userKey` fails with `badRequest` and changes
nothing; in the part_000 and script.js (ethers-v5) drafts a missing
address or signature fails with `badRequest`, but a missing nonce is
silently replaced by a fresh one stored on the transport session and
verification proceeds against the new nonce, never answering
`badRequest` for that reason. -/
theorem siweVerify_missing_input_amended
    (recover : String → String → String) (bindOk : Bool) (now : Int)
    (address signature : Option String) (ts : MainDraft.Transport)
    (db : MainDraft.DB) (recoverP : String → String → String)
    (freshNonce : String) (bindOkP : Bool) (nowP : Int)
    (addressP signatureP rhP : Option String) (tsP : DraftP.Transport)
    (dbP : DraftP.DB) (aP sP : String) (rhP2 : Option String)
    (tsP2 : DraftP.Transport) (dbP2 : DraftP.DB)
    (recoverV : String → String → String) (freshNonceV : String)
    (nowV : Int) (addressV signatureV : Option String)
    (tsV : DraftP.Transport) (dbV : DraftP.DB) (aV sV : String)
    (tsV2 : DraftP.Transport) (dbV2 : DraftP.DB)
    (hm : ts.nonce = none ∨ address = none ∨ signature = none ∨
      ts.userKey = none)
    (hb : addressP = none ∨ signatureP = none)
    (hc : tsP2.nonce = none)
    (hbV : addressV = none ∨ signatureV = none)
    (hcV : tsV2.nonce = none) :
    MainDraft.siweVerify recover bindOk now address signature ts db =
      { outcome := .badRequest, ts := ts, db := db } ∧
    (DraftP.siweVerify recoverP freshNonce bindOkP nowP addressP
      signatureP rhP tsP dbP).outcome = Outcome.badRequest ∧
    (DraftP.siweVerify recoverP freshNonce bindOkP nowP (some aP)
      (some sP) rhP2 tsP2 dbP2).ts.nonce = some freshNonce ∧
    (DraftP.siweVerify recoverP freshNonce bindOkP nowP (some aP)
      (some sP) rhP2 tsP2 dbP2).outcome ≠ Outcome.badRequest ∧
    (DraftV.siweVerify recoverV freshNonceV nowV addressV signatureV
      tsV dbV).outcome = Outcome.badRequest ∧
    (DraftV.siweVerify recoverV freshNonceV nowV (some aV) (some sV)
      tsV2 dbV2).ts.nonce = some freshNonceV ∧
    (DraftV.siweVerify recoverV freshNonceV nowV (some aV) (some sV)
      tsV2 dbV2).outcome ≠ Outcome.badRequest := by
  refine ⟨?_, ?_, ?_, ?_, ?_, ?_, ?_⟩
  · unfold MainDraft.siweVerify
    rcases hm with h | h | h | h <;>
      rcases hn : ts.nonce with _ | n <;> rcases address with _ | a <;>
      rcases signature with _ | s <;> rcases hk : ts.userKey with _ | u <;>
      simp_all
  · unfold DraftP.siweVerify
    rcases hb with h | h
    · rw [h]
    · rw [h]
      rcases addressP with _ | a <;> rfl
  · unfold DraftP.siweVerify
    rw [hc]
    simp only [Option.getD_none]
    by_cases hcnd : toLowerStr (recoverP (siweMessage freshNonce) sP) =
        toLowerStr aP
    · rcases hrb : DraftP.rfidByAddress
          (DraftP.getOrInitAddrSession (toLowerStr aP) dbP2).2.walletBindings
          (toLowerStr aP) with _ | rh
      · rcases rhP2 with _ | rh2 <;> cases bindOkP <;> simp [hcnd, hrb]
      · simp [hcnd, hrb]
    · simp [hcnd]
  · unfold DraftP.siweVerify
    rw [hc]
    simp only [Option.getD_none]
    by_cases hcnd : toLowerStr (recoverP (siweMessage freshNonce) sP) =
        toLowerStr aP
    · rcases hrb : DraftP.rfidByAddress
          (DraftP.getOrInitAddrSession (toLowerStr aP) dbP2).2.walletBindings
          (toLowerStr aP) with _ | rh
      · rcases rhP2 with _ | rh2 <;> cases bindOkP <;> simp [hcnd, hrb]
      · simp [hcnd, hrb]
    · simp [hcnd]
  · unfold DraftV.siweVerify
    rcases hbV with h | h
    · rw [h]
    · rw [h]
      rcases addressV with _ | a <;> rfl
  · unfold DraftV.siweVerify
    rw [hcV]
    simp only [Option.getD_none]
    by_cases hcnd : toLowerStr (recoverV (siweMessage freshNonceV) sV) =
        toLowerStr aV <;> simp [hcnd]
  · unfold DraftV.siweVerify
    rw [hcV]
    simp only [Option.getD_none]
    by_cases hcnd : toLowerStr (recoverV (siweMessage freshNonceV) sV) =
        toLowerStr aV <;> simp [hcnd]

/-- Witness for the amended C8 at concrete inputs. -/
theorem siweVerify_missing_input_amended_witness :
    ((MainDraft.Transport.mk none (some "u1") none none).nonce = none ∨
      (some "0xAB" : Option String) = none ∨
      (some "s1" : Option String) = none ∨
      (MainDraft.Transport.mk none (some "u1") none none).userKey =
        none) ∧
    ((none : Option String) = none ∨ (some "s2" : Option String) = none) ∧
    (DraftP.Transport.mk none none).nonce = none ∧
    ((none : Option String) = none ∨ (some "s3" : Option String) = none) ∧
    (DraftP.Transport.mk none (some "0xolder")).nonce = none ∧
    (MainDraft.siweVerify (fun _ _ => "0xab") true 7 (some "0xAB")
        (some "s1") (MainDraft.Transport.mk none (some "u1") none none)
        (MainDraft.DB.mk [] []) =
      { outcome := .badRequest
        ts := MainDraft.Transport.mk none (some "u1") none none
        db := MainDraft.DB.mk [] [] } ∧
    (DraftP.siweVerify (fun _ _ => "0xab") "f2" true 7 none (some "s2")
      none (DraftP.Transport.mk (some "n2") none)
      (DraftP.DB.mk [] [])).outcome = Outcome.badRequest ∧
    (DraftP.siweVerify (fun _ _ => "0xab") "f2" true 7 (some "0xAB")
      (some "s2") none (DraftP.Transport.mk none none)
      (DraftP.DB.mk [] [])).ts.nonce = some "f2" ∧
    (DraftP.siweVerify (fun _ _ => "0xab") "f2" true 7 (some "0xAB")
      (some "s2") none (DraftP.Transport.mk none none)
      (DraftP.DB.mk [] [])).outcome ≠ Outcome.badRequest ∧
    (DraftV.siweVerify (fun _ _ => "0xab") "f3" 9 none (some "s3")
      (DraftP.Transport.mk (some "n3") none)
      (DraftP.DB.mk [] [])).outcome = Outcome.badRequest ∧
    (DraftV.siweVerify (fun _ _ => "0xab") "f3" 9 (some "0xAB")
      (some "s3") (DraftP.Transport.mk none (some "0xolder"))
      (DraftP.DB.mk [] [])).ts.nonce = some "f3" ∧
    (DraftV.siweVerify (fun _ _ => "0xab") "f3" 9 (some "0xAB")
      (some "s3") (DraftP.Transport.mk none (some "0xolder"))
      (DraftP.DB.mk [] [])).outcome ≠ Outcome.badRequest) :=
  ⟨Or.inl rfl, Or.inl rfl, rfl, Or.inl rfl, rfl,
    siweVerify_missing_input_amended (fun _ _ => "0xab") true 7
      (some "0xAB") (some "s1")
      (MainDraft.Transport.mk none (some "u1") none none)
      (MainDraft.DB.mk [] []) (fun _ _ => "0xab") "f2" true 7 none
      (some "s2") none (DraftP.Transport.mk (some "n2") none)
      (DraftP.DB.mk [] []) "0xAB" "s2" none
      (DraftP.Transport.mk none none) (DraftP.DB.mk [] [])
      (fun _ _ => "0xab") "f3" 9 none (some "s3")
      (DraftP.Transport.mk (some "n3") none) (DraftP.DB.mk [] [])
      "0xAB" "s3" (DraftP.Transport.mk none (some "0xolder"))
      (DraftP.DB.mk [] [])
      (Or.inl rfl) (Or.inl rfl) rfl (Or.inl rfl) rfl⟩

/-- C3: the main draft never clears `req.session.nonce` in
`POST /siwe/verify`, so a second verification attempt in the same
conversation with the same (already used) nonce and signature succeeds
again instead of failing with `badRequest`: the nonce is not consumed. -/
theorem siweVerify_replay_with_same_nonce_succeeds :
    (MainDraft.siweVerify (fun _ _ => "0xab") true 10 (some "0xAB")
      (some "sig1")
      (MainDraft.Transport.mk (some "n1") (some "u1") none none)
      (MainDraft.DB.mk [] [])).outcome = Outcome.ok ∧
    (MainDraft.siweVerify (fun _ _ => "0xab") true 10 (some "0xAB")
      (some "sig1")
      (MainDraft.Transport.mk (some "n1") (some "u1") none none)
      (MainDraft.DB.mk [] [])).ts.nonce = some "n1" ∧
    (MainDraft.siweVerify (fun _ _ => "0xab") true 20 (some "0xAB")
      (some "sig1")
      (MainDraft.siweVerify (fun _ _ => "0xab") true 10 (some "0xAB")
        (some "sig1")
        (MainDraft.Transport.mk (some "n1") (some "u1") none none)
        (MainDraft.DB.mk [] [])).ts
      (MainDraft.siweVerify (fun _ _ => "0xab") true 10 (some "0xAB")
        (some "sig1")
        (MainDraft.Transport.mk (some "n1") (some "u1") none none)
        (MainDraft.DB.mk [] [])).db).outcome = Outcome.ok ∧
    (MainDraft.siweVerify (fun _ _ => "0xab") true 20 (some "0xAB")
      (some "sig1")
      (MainDraft.siweVerify (fun _ _ => "0xab") true 10 (some "0xAB")
        (some "sig1")
        (MainDraft.Transport.mk (some "n1") (some "u1") none none)
        (MainDraft.DB.mk [] [])).ts
      (MainDraft.siweVerify (fun _ _ => "0xab") true 10 (some "0xAB")
        (some "sig1")
        (MainDraft.Transport.mk (some "n1") (some "u1") none none)
        (MainDraft.DB.mk [] [])).db).outcome ≠ Outcome.badRequest := by
  decide

end ZeroTrust
